import Mathlib

/-
  Shallow embedding of the MetalX agent (src/agent/src/main.rs, utils.rs,
  config.rs): the message codec, the task dispatcher, the registration-step
  logic of agent_main, the socket read-loop step, and the supervisory restart
  of main. External primitives (file transfer, subprocess spawning) are
  modelled as environments supplying their outcomes.
-/

namespace MetalX

/-- Subset of serde_json::Value as it occurs in the message data maps. -/
inductive JsonValue where
  | null
  | bool (b : Bool)
  | num (n : Int)
  | str (s : String)
  deriving DecidableEq, Repr

/-- HashMap<String, Value> modelled as an association list with unique keys
assumed; lookup returns the first binding. -/
abbrev JsonMap := List (String × JsonValue)

/-- HashMap::get on the association-list model. -/
def mapGet (m : JsonMap) (key : String) : Option JsonValue :=
  (m.find? (fun p => p.1 == key)).map (fun p => p.2)

/-- main.rs json_str: Some(s) when the key is bound to a JSON string, None when
the key is absent or bound to a value of any other type. -/
def json_str (map : JsonMap) (key : String) : Option String :=
  match mapGet map key with
  | some (JsonValue.str v2) => some v2
  | _ => none

/-- main.rs json_bool: Some(b) when the key is bound to a JSON bool, None when
the key is absent or bound to a value of any other type. -/
def json_bool (map : JsonMap) (key : String) : Option Bool :=
  match mapGet map key with
  | some (JsonValue.bool v2) => some v2
  | _ => none

/-- main.rs EventMessage: the wire envelope. id is a u64 (only echoed, never
computed with), code an i32 modelled as Int. -/
structure EventMessage where
  id : Nat
  code : Int
  event : String
  data : Option JsonMap
  deriving DecidableEq, Repr

/-- main.rs FileDownloadUploadTask. -/
structure FileDownloadUploadTask where
  id : Nat
  url : String
  path : String
  deriving DecidableEq, Repr

/-- main.rs ExecuteTask. -/
structure ExecuteTask where
  id : Nat
  cmd : String
  deriving DecidableEq, Repr

/-- main.rs Event: the classified task variants. Raw keeps the whole envelope. -/
inductive Event where
  | download (t : FileDownloadUploadTask)
  | upload (t : FileDownloadUploadTask)
  | execute (t : ExecuteTask)
  | raw (msg : EventMessage)
  deriving DecidableEq, Repr

/-- impl From<EventMessage> for Event: match on event.as_str(), validate the
required data fields through json_str, fall through to Raw otherwise. -/
def Event.ofMsg (msg : EventMessage) : Event :=
  if msg.event = "download" then
    match msg.data with
    | some data =>
      match json_str data "url" with
      | some url =>
        match json_str data "path" with
        | some path => Event.download ⟨msg.id, url, path⟩
        | none => Event.raw msg
      | none => Event.raw msg
    | none => Event.raw msg
  else if msg.event = "upload" then
    match msg.data with
    | some data =>
      match json_str data "url" with
      | some url =>
        match json_str data "path" with
        | some path => Event.upload ⟨msg.id, url, path⟩
        | none => Event.raw msg
      | none => Event.raw msg
    | none => Event.raw msg
  else if msg.event = "execute" then
    match msg.data with
    | some data =>
      match json_str data "cmd" with
      | some cmd => Event.execute ⟨msg.id, cmd⟩
      | none => Event.raw msg
    | none => Event.raw msg
  else Event.raw msg

/-- Variant tag of a classified Event. -/
inductive TaskKind where
  | download
  | upload
  | execute
  | raw
  deriving DecidableEq, Repr

/-- The variant an Event was classified into. -/
def Event.kind : Event → TaskKind
  | Event.download _ => TaskKind.download
  | Event.upload _ => TaskKind.upload
  | Event.execute _ => TaskKind.execute
  | Event.raw _ => TaskKind.raw

/-- The task id carried by a classified Event (the Raw variant carries the
whole original envelope, whose id field is used for the reply). -/
def Event.taskId : Event → Nat
  | Event.download t => t.id
  | Event.upload t => t.id
  | Event.execute t => t.id
  | Event.raw m => m.id

/-- std::process ExitStatus.code(): Some(code) when the process exited
normally, None when the exit status cannot be reported (killed by a signal). -/
inductive ExitStatus where
  | exited (code : Int)
  | signaled
  deriving DecidableEq, Repr

/-- Outcome of Command::status().await in utils.rs: either an exit status or an
I/O error from spawning/waiting. -/
inductive SpawnOutcome where
  | status (st : ExitStatus)
  | ioError
  deriving DecidableEq, Repr

/-- utils.rs execute_command: Ok(code) when status().code() gives Some(code),
Err both when code() gives None (bail) and when status() itself errors. -/
def execute_command (outcome : SpawnOutcome) : Except Unit Int :=
  match outcome with
  | SpawnOutcome.status (ExitStatus.exited code) => Except.ok code
  | SpawnOutcome.status ExitStatus.signaled => Except.error ()
  | SpawnOutcome.ioError => Except.error ()

/-- Outcomes of the external primitives, per invocation target: download and
upload record whether download_file / upload_file returned Ok, shell records
the subprocess outcome of running the command under sh -c. -/
structure HandlerEnv where
  download : String → String → Bool
  upload : String → String → Bool
  shell : String → SpawnOutcome

/-- utils.rs execute_shell: run the command through sh -c via execute_command. -/
def execute_shell (env : HandlerEnv) (cmd : String) : Except Unit Int :=
  execute_command (env.shell cmd)

/-- Rust u32-to-i32 cast (bit reinterpretation). -/
def u32_as_i32 (n : Nat) : Int :=
  if n % 2 ^ 32 < 2 ^ 31 then ((n % 2 ^ 32 : Nat) : Int)
  else ((n % 2 ^ 32 : Nat) : Int) - 2 ^ 32

/-- main.rs handle_message: the list of reply envelopes sent over the socket
for one dispatched event. Every arm builds exactly one EventMessage with
event "task_completed" and sends it as one text frame. -/
def handle_message (env : HandlerEnv) (event : Event) : List EventMessage :=
  match event with
  | Event.download task =>
      [{ id := task.id
         code := if env.download task.url task.path then 0 else 1
         event := "task_completed"
         data := none }]
  | Event.upload task =>
      [{ id := task.id
         code := if env.upload task.url task.path then 0 else 1
         event := "task_completed"
         data := none }]
  | Event.execute task =>
      [{ id := task.id
         code := match execute_shell env task.cmd with
                 | Except.ok sc => sc
                 | Except.error _ => -1
         event := "task_completed"
         data := none }]
  | Event.raw msg =>
      [{ id := msg.id
         code := u32_as_i32 0x80000000
         event := "task_completed"
         data := some [("error", JsonValue.str "Unknown event type")] }]

/-- config.rs Config: resolved configuration. port is a u16. -/
structure Config where
  addr : String
  port : Nat
  https : Bool
  api_base_path : String
  deriving DecidableEq, Repr

/-- config.rs Config::default. -/
def Config.default : Config :=
  { addr := "controller", port := 1091, https := false, api_base_path := "api/v1" }

/-- main.rs agent_main lines 219-243: resolve the socket URL from the
registration response data. Note the source queries the key "redirct". -/
def ws_url (config : Config) (data : Option JsonMap) : Option String :=
  match data with
  | some d =>
    match json_str d "ws" with
    | some ws =>
      if (json_bool d "redirct").getD false then some ws
      else
        some ((if config.https then "wss" else "ws") ++ "://" ++ config.addr ++ ":" ++
              toString config.port ++ "/" ++ ws)
    | none =>
      some ((if config.https then "wss" else "ws") ++ "://" ++ config.addr ++ ":" ++
            toString config.port ++ "/" ++ config.api_base_path ++ "/ws")
  | none => none

/-- One registration attempt as seen by agent_main: the POST either fails
outright, or yields a response with some HTTP status and a body that may or
may not parse as an EventMessage. The source never inspects the status. -/
inductive RegResult where
  | netErr
  | response (status : Nat) (body : Option EventMessage)
  deriving DecidableEq, Repr

/-- What agent_main does with one registration attempt. -/
inductive RegStep where
  | sleepRetryReg (delaySecs : Nat)
  | abortToMain
  | openSession (url : String)
  deriving DecidableEq, Repr

/-- main.rs agent_main lines 205-251: a send error sleeps 15 s and retries the
register loop; a body that fails to parse propagates out of agent_main through
the question-mark operator; an unresolvable socket URL sleeps 15 s and
retries; otherwise the socket is opened at the resolved URL. -/
def registration_step (config : Config) (r : RegResult) : RegStep :=
  match r with
  | RegResult.netErr => RegStep.sleepRetryReg 15
  | RegResult.response _status body =>
    match body with
    | none => RegStep.abortToMain
    | some client_conf =>
      match ws_url config client_conf.data with
      | none => RegStep.sleepRetryReg 15
      | some url => RegStep.openSession url

/-- One item pulled from the socket read loop (rx.next()): a frame, with any
text frame already put through serde_json parsing, or a read error. -/
inductive SessionInput where
  | text (parsed : Option EventMessage)
  | binary
  | ping
  | pong
  | close
  | rawFrame
  | readErr
  deriving DecidableEq, Repr

/-- Whether the read-loop iteration keeps the session or aborts agent_main. -/
inductive SessionAction where
  | continueLoop
  | failSession
  deriving DecidableEq, Repr

/-- Frames the loop body itself awaits a send for. -/
inductive SentFrame where
  | pongFrame
  | textFrame (m : EventMessage)
  deriving DecidableEq, Repr

/-- Result of one read-loop iteration. -/
structure SessionStepResult where
  action : SessionAction
  sent : List SentFrame
  deriving DecidableEq, Repr

/-- main.rs agent_main lines 254-296, one read-loop iteration. A text frame
that fails serde_json parsing aborts agent_main through the question-mark
operator; a parseable text frame continues the loop (the handle_message call
at line 263 is not awaited, so the loop itself sends nothing for it); binary,
pong, close and raw frames are only logged; ping is answered with a pong; a
read error is only logged and the loop keeps reading. -/
def session_step (input : SessionInput) : SessionStepResult :=
  match input with
  | SessionInput.text none => ⟨SessionAction.failSession, []⟩
  | SessionInput.text (some _) => ⟨SessionAction.continueLoop, []⟩
  | SessionInput.binary => ⟨SessionAction.continueLoop, []⟩
  | SessionInput.ping => ⟨SessionAction.continueLoop, [SentFrame.pongFrame]⟩
  | SessionInput.pong => ⟨SessionAction.continueLoop, []⟩
  | SessionInput.close => ⟨SessionAction.continueLoop, []⟩
  | SessionInput.rawFrame => ⟨SessionAction.continueLoop, []⟩
  | SessionInput.readErr => ⟨SessionAction.continueLoop, []⟩

/-- Which phase the connection manager enters on (re)start: agent_main begins
its loop with the registration POST. -/
inductive AgentPhase where
  | registering
  | inSession
  deriving DecidableEq, Repr

/-- main.rs main lines 332-338: when agent_main returns an error, sleep 60 s
and call agent_main again, which starts over at registration. -/
def supervisor_restart : Nat × AgentPhase := (60, AgentPhase.registering)

/-! Helper lemmas shared by several claims. -/

/-- Classification preserves the envelope id into the task. -/
theorem ofMsg_taskId (m : EventMessage) : (Event.ofMsg m).taskId = m.id := by
  unfold Event.ofMsg
  split_ifs <;>
    first
      | rfl
      | (rcases m.data with _ | d
         · rfl
         · dsimp only
           rcases json_str d "url" with _ | u <;>
             rcases json_str d "path" with _ | p <;>
             rcases json_str d "cmd" with _ | c <;> rfl)

/-- The dispatcher sends exactly one reply, carrying the task id and the
event tag task_completed. -/
theorem handle_message_single (env : HandlerEnv) (e : Event) :
    ∃ r : EventMessage, handle_message env e = [r] ∧
      r.id = e.taskId ∧ r.event = "task_completed" := by
  cases e <;> exact ⟨_, rfl, rfl, rfl⟩

/-- Sample environment for concrete instantiations. -/
def envEx : HandlerEnv :=
  { download := fun _ _ => true
    upload := fun _ _ => true
    shell := fun _ => SpawnOutcome.status (ExitStatus.exited 0) }

/-- Sample valid download envelope. -/
def msgDl : EventMessage :=
  { id := 7, code := 0, event := "download"
    data := some [("url", JsonValue.str "http://c/f"), ("path", JsonValue.str "/tmp/f")] }

/-- C1: every inbound envelope successfully classified as a download, upload or
execute task is answered by the dispatcher with exactly one reply envelope
whose id equals the inbound id and whose event is "task_completed". -/
theorem C1_dispatch_single_reply (env : HandlerEnv) (m : EventMessage)
    (h : (Event.ofMsg m).kind ≠ TaskKind.raw) :
    ∃ r : EventMessage, handle_message env (Event.ofMsg m) = [r] ∧
      r.id = m.id ∧ r.event = "task_completed" := by
  obtain ⟨r, hr, hid, hev⟩ := handle_message_single env (Event.ofMsg m)
  exact ⟨r, hr, by rw [hid, ofMsg_taskId], hev⟩

/-- C1 witness: concrete valid download envelope. -/
theorem C1_dispatch_single_reply_witness :
    ∃ r : EventMessage, handle_message envEx (Event.ofMsg msgDl) = [r] ∧
      r.id = msgDl.id ∧ r.event = "task_completed" :=
  C1_dispatch_single_reply envEx msgDl (by decide)

/-- Sample unrecognized-event envelope. -/
def msgUnknown : EventMessage :=
  { id := 9, code := 0, event := "frobnicate", data := none }

/-- C2: an envelope whose event is not download/upload/execute, or whose
required data fields are missing or not string-typed, classifies to the Raw
variant; its reply carries the fixed unknown-event sentinel code and a data
map with a non-empty error string; the session read loop continues. -/
theorem C2_unrecognized_reply (env : HandlerEnv) (m : EventMessage)
    (h : (m.event ≠ "download" ∧ m.event ≠ "upload" ∧ m.event ≠ "execute") ∨
         ((m.event = "download" ∨ m.event = "upload") ∧
           (m.data = none ∨ ∃ d, m.data = some d ∧
             (json_str d "url" = none ∨ json_str d "path" = none))) ∨
         (m.event = "execute" ∧
           (m.data = none ∨ ∃ d, m.data = some d ∧ json_str d "cmd" = none))) :
    Event.ofMsg m = Event.raw m ∧
    (∃ r, handle_message env (Event.raw m) = [r] ∧
       r.code = u32_as_i32 0x80000000 ∧
       ∃ s, (∃ d, r.data = some d ∧ json_str d "error" = some s) ∧ s ≠ "") ∧
    (session_step (SessionInput.text (some m))).action = SessionAction.continueLoop := by
  refine ⟨?_, ⟨_, rfl, rfl, "Unknown event type", ⟨_, rfl, rfl⟩, by decide⟩, rfl⟩
  unfold Event.ofMsg
  split_ifs with h1 h2 h3
  · rcases h with ⟨c1, _, _⟩ | ⟨_, hdata⟩ | ⟨hx, _⟩
    · exact absurd h1 c1
    · rcases hdata with hn | ⟨d, hd, hmiss⟩
      · rw [hn]
      · rw [hd]
        dsimp only
        rcases hmiss with hu | hp
        · rw [hu]
        · cases hfind : json_str d "url" with
          | none => rfl
          | some u => rw [hp]
    · rw [h1] at hx
      exact absurd hx (by decide)
  · rcases h with ⟨_, c2, _⟩ | ⟨_, hdata⟩ | ⟨hx, _⟩
    · exact absurd h2 c2
    · rcases hdata with hn | ⟨d, hd, hmiss⟩
      · rw [hn]
      · rw [hd]
        dsimp only
        rcases hmiss with hu | hp
        · rw [hu]
        · cases hfind : json_str d "url" with
          | none => rfl
          | some u => rw [hp]
    · rw [h2] at hx
      exact absurd hx (by decide)
  · rcases h with ⟨_, _, c3⟩ | ⟨hor, _⟩ | ⟨_, hdata⟩
    · exact absurd h3 c3
    · rcases hor with hdl | hup
      · rw [h3] at hdl
        exact absurd hdl (by decide)
      · rw [h3] at hup
        exact absurd hup (by decide)
    · rcases hdata with hn | ⟨d, hd, hc⟩
      · rw [hn]
      · rw [hd]
        dsimp only
        rw [hc]
  · rfl

/-- C2 witness: concrete envelope with event "frobnicate". -/
theorem C2_unrecognized_reply_witness :
    Event.ofMsg msgUnknown = Event.raw msgUnknown ∧
    (∃ r, handle_message envEx (Event.raw msgUnknown) = [r] ∧
       r.code = u32_as_i32 0x80000000 ∧
       ∃ s, (∃ d, r.data = some d ∧ json_str d "error" = some s) ∧ s ≠ "") ∧
    (session_step (SessionInput.text (some msgUnknown))).action =
      SessionAction.continueLoop :=
  C2_unrecognized_reply envEx msgUnknown (Or.inl (by decide))

/-- C3: for an execute task the reply code equals the exit status N of the
sh subprocess whenever it is obtainable, and -1 when the status cannot be
determined (signal) or the shell invocation itself errors. -/
theorem C3_execute_exit_code (env : HandlerEnv) (t : ExecuteTask) :
    (∀ N : Int, env.shell t.cmd = SpawnOutcome.status (ExitStatus.exited N) →
        0 ≤ N → N ≤ 255 →
        handle_message env (Event.execute t) =
          [{ id := t.id, code := N, event := "task_completed", data := none }]) ∧
    (env.shell t.cmd = SpawnOutcome.status ExitStatus.signaled →
        handle_message env (Event.execute t) =
          [{ id := t.id, code := -1, event := "task_completed", data := none }]) ∧
    (env.shell t.cmd = SpawnOutcome.ioError →
        handle_message env (Event.execute t) =
          [{ id := t.id, code := -1, event := "task_completed", data := none }]) := by
  refine ⟨fun N h _ _ => ?_, fun h => ?_, fun h => ?_⟩ <;>
    · unfold handle_message execute_shell execute_command
      dsimp only
      rw [h]

/-- Sample environment whose shell reports exit status 42. -/
def envExec : HandlerEnv :=
  { download := fun _ _ => false
    upload := fun _ _ => false
    shell := fun _ => SpawnOutcome.status (ExitStatus.exited 42) }

/-- C3 witness: command exiting with status 42 yields reply code 42. -/
theorem C3_execute_exit_code_witness :
    handle_message envExec (Event.execute ⟨3, "exit 42"⟩) =
      [{ id := 3, code := 42, event := "task_completed", data := none }] :=
  (C3_execute_exit_code envExec ⟨3, "exit 42"⟩).1 42 rfl (by decide) (by decide)

/-- C4: bug evidence. The source queries the data key "redirct", so a
registration response carrying ws together with redirect = true does not take
the verbatim branch: the composed URL is produced instead of ws itself. Only
the misspelt key "redirct" triggers the verbatim branch. -/
theorem C4_redirct_typo :
    ws_url Config.default
        (some [("ws", JsonValue.str "wss://other.example/sock"),
               ("redirect", JsonValue.bool true)]) =
      some "ws://controller:1091/wss://other.example/sock" ∧
    ws_url Config.default
        (some [("ws", JsonValue.str "wss://other.example/sock"),
               ("redirect", JsonValue.bool true)]) ≠
      some "wss://other.example/sock" ∧
    ws_url Config.default
        (some [("ws", JsonValue.str "wss://other.example/sock"),
               ("redirct", JsonValue.bool true)]) =
      some "wss://other.example/sock" := by
  refine ⟨rfl, by decide, rfl⟩

/-- C5 counterexample: a registration response with no data at all yields no
socket URL and takes the 15 s retry path, instead of composing the default
URL and opening the socket. -/
theorem C5_no_data_counterexample :
    ws_url Config.default none = none ∧
    registration_step Config.default
        (RegResult.response 200
          (some { id := 1, code := 0, event := "registered", data := none })) =
      RegStep.sleepRetryReg 15 ∧
    registration_step Config.default
        (RegResult.response 200
          (some { id := 1, code := 0, event := "registered", data := none })) ≠
      RegStep.openSession "ws://controller:1091/api/v1/ws" := by
  refine ⟨rfl, rfl, by decide⟩

/-- C5 amended: when the response data is present but carries no string field
ws, the default URL is composed and the socket is opened there; when the data
is absent, URL resolution yields none (the 15 s retry path). -/
theorem C5_default_url (config : Config) (d : JsonMap)
    (h : json_str d "ws" = none) :
    ws_url config (some d) =
      some ((if config.https then "wss" else "ws") ++ "://" ++ config.addr ++ ":" ++
            toString config.port ++ "/" ++ config.api_base_path ++ "/ws") ∧
    (∀ status i c e, registration_step config
        (RegResult.response status (some { id := i, code := c, event := e, data := some d })) =
      RegStep.openSession
        ((if config.https then "wss" else "ws") ++ "://" ++ config.addr ++ ":" ++
         toString config.port ++ "/" ++ config.api_base_path ++ "/ws")) ∧
    ws_url config none = none := by
  have hws : ws_url config (some d) =
      some ((if config.https then "wss" else "ws") ++ "://" ++ config.addr ++ ":" ++
            toString config.port ++ "/" ++ config.api_base_path ++ "/ws") := by
    unfold ws_url
    dsimp only
    rw [h]
  refine ⟨hws, fun status i c e => ?_, rfl⟩
  unfold registration_step
  dsimp only
  rw [hws]

/-- C5 witness: a data map with no ws field composes the default URL. -/
theorem C5_default_url_witness :
    ws_url Config.default (some [("note", JsonValue.num 1)]) =
      some ((if Config.default.https then "wss" else "ws") ++ "://" ++
            Config.default.addr ++ ":" ++ toString Config.default.port ++ "/" ++
            Config.default.api_base_path ++ "/ws") :=
  (C5_default_url Config.default [("note", JsonValue.num 1)] rfl).1

/-- C6 counterexample: a 2xx response with a non-parseable body aborts
agent_main (the 60 s supervisor path), not the 15 s retry path; and a non-2xx
response with a parseable body is not treated as a failure at all. -/
theorem C6_registration_counterexample :
    registration_step Config.default (RegResult.response 200 none) = RegStep.abortToMain ∧
    registration_step Config.default (RegResult.response 200 none) ≠
      RegStep.sleepRetryReg 15 ∧
    registration_step Config.default
        (RegResult.response 500
          (some { id := 1, code := 0, event := "registered",
                  data := some [("ws", JsonValue.str "p")] })) =
      RegStep.openSession "ws://controller:1091/p" := by
  refine ⟨rfl, by decide, rfl⟩

/-- C6 amended: only a network send error takes the 15 s registration retry
path; the HTTP status is never inspected; a non-parseable body aborts
agent_main, after which the supervisor waits 60 s and restarts from
registration. -/
theorem C6_registration_paths (config : Config) (status : Nat)
    (body : Option EventMessage) :
    registration_step config RegResult.netErr = RegStep.sleepRetryReg 15 ∧
    registration_step config (RegResult.response status none) = RegStep.abortToMain ∧
    registration_step config (RegResult.response status body) =
      registration_step config (RegResult.response 200 body) ∧
    supervisor_restart = (60, AgentPhase.registering) :=
  ⟨rfl, rfl, rfl, rfl⟩

/-- C7 counterexample: a close frame does not fail the session, so it cannot
trigger the 60 s restart path. -/
theorem C7_close_counterexample :
    (session_step SessionInput.close).action = SessionAction.continueLoop ∧
    (session_step SessionInput.close).action ≠ SessionAction.failSession :=
  ⟨rfl, by decide⟩

/-- C7 amended: an unsolicited close frame is only logged: the read loop
continues, nothing is sent, and agent_main is not aborted by it. -/
theorem C7_close_ignored :
    session_step SessionInput.close =
      { action := SessionAction.continueLoop, sent := [] } := rfl

/-- C8 counterexample: a read error does not fail the session; the loop keeps
reading further frames, so no 60 s backoff follows a read error. -/
theorem C8_read_error_counterexample :
    (session_step SessionInput.readErr).action = SessionAction.continueLoop ∧
    (session_step SessionInput.readErr).action ≠ SessionAction.failSession :=
  ⟨rfl, by decide⟩

/-- C8 amended: a read error is only logged: the read loop continues with the
next frame, nothing is sent, and agent_main is not aborted by it. -/
theorem C8_read_error_ignored :
    session_step SessionInput.readErr =
      { action := SessionAction.continueLoop, sent := [] } := rfl

/-- C9: a text frame whose content does not parse as an Envelope aborts
agent_main with no reply sent for the frame; the supervisor then waits 60 s
and restarts the cycle from registration. -/
theorem C9_malformed_frame :
    session_step (SessionInput.text none) =
      { action := SessionAction.failSession, sent := [] } ∧
    supervisor_restart = (60, AgentPhase.registering) :=
  ⟨rfl, rfl⟩

/-- C10: the classification variant and the reply depend only on the inbound
id, event and data fields; the inbound code field never influences them. -/
theorem C10_code_noninterference (env : HandlerEnv) (m₁ m₂ : EventMessage)
    (hid : m₁.id = m₂.id) (hev : m₁.event = m₂.event) (hdata : m₁.data = m₂.data) :
    (Event.ofMsg m₁).kind = (Event.ofMsg m₂).kind ∧
    handle_message env (Event.ofMsg m₁) = handle_message env (Event.ofMsg m₂) := by
  obtain ⟨i₁, c₁, e₁, d₁⟩ := m₁
  obtain ⟨i₂, c₂, e₂, d₂⟩ := m₂
  dsimp only at hid hev hdata
  subst hid
  subst hev
  subst hdata
  constructor <;>
  · unfold Event.ofMsg
    split_ifs <;>
      first
        | rfl
        | (cases d₁ with
           | none => rfl
           | some d =>
             dsimp only
             cases json_str d "url" <;> cases json_str d "path" <;>
               cases json_str d "cmd" <;> rfl)

/-- C10 witness: two envelopes differing only in code produce the same
variant and the same reply. -/
theorem C10_code_noninterference_witness :
    (Event.ofMsg { id := 5, code := 0, event := "nonsense", data := none }).kind =
      (Event.ofMsg { id := 5, code := 99, event := "nonsense", data := none }).kind ∧
    handle_message envEx (Event.ofMsg { id := 5, code := 0, event := "nonsense", data := none }) =
      handle_message envEx (Event.ofMsg { id := 5, code := 99, event := "nonsense", data := none }) :=
  C10_code_noninterference envEx _ _ rfl rfl rfl

end MetalX
